import Mathlib

/-!
# NijiMarket backend — verification of the specified auth / CRUD behavior

Shallow embedding of the NijiMarket FastAPI backend (`backend/app/`):
the user / category / product / vendor data model, the identity resolver
and role gates (`app/core/dependencies.py`), the auth endpoints
(`app/api/auth.py`), category endpoints (`app/api/categories.py`),
vendor / product role checks (`app/api/vendors.py`, `app/api/products.py`)
and the media store (`app/core/file_handler.py`).

HTTP errors are modelled as a status code plus detail string; database
state as lists of records; the filesystem as a list of paths.  The
credential codec (`app/core/auth.py`) is not among the provided source
files, so it is modelled from the spec (section 4.1): tokens are records
carrying their claims, kind, signature validity and expiry instant, and
decoding checks those.
-/

set_option maxRecDepth 4096

namespace NijiMarket

/-- An HTTP error response: status code and detail message
(FastAPI `HTTPException`). -/
structure Err where
  status : Nat
  detail : String
deriving DecidableEq

/-- `UserRole` enum from `app/models/user.py`. -/
inductive UserRole where
  | admin
  | vendor
  | consumer
deriving DecidableEq

/-- `.value` of the `UserRole` enum members. -/
def UserRole.value : UserRole → String
  | .admin => "admin"
  | .vendor => "vendor"
  | .consumer => "consumer"

/-- A row of the `users` table (`app/models/user.py`), restricted to the
columns the endpoints under verification read or write. -/
structure UserRec where
  id : Nat
  email : String
  phone : Option String := none
  hashed_password : String
  full_name : String := ""
  role : UserRole
  is_active : Bool := true
  is_verified : Bool := false
  profile_image : Option String := none
  address : Option String := none
  city : Option String := none
  prefecture : Option String := none
  country : String := "Japan"
  postal_code : Option String := none
deriving DecidableEq

/-- A row of the `categories` table (`app/models/product.py`). -/
structure CategoryRec where
  id : Nat
  name : String
  is_active : Bool := true
deriving DecidableEq

/-- A row of the `products` table, restricted to the columns used by the
verified endpoints. -/
structure ProductRec where
  id : Nat
  vendor_id : Nat
  category_id : Nat
  is_available : Bool := true
deriving DecidableEq

/-- A row of the `vendors` table, restricted to the columns used by the
verified endpoints. -/
structure VendorRec where
  id : Nat
  user_id : Nat
  market_id : Nat
  business_name : String := ""
deriving DecidableEq

/-- A row of the `markets` table. -/
structure MarketRec where
  id : Nat
  name : String := ""
deriving DecidableEq

/-- The relational database state. -/
structure DB where
  users : List UserRec := []
  categories : List CategoryRec := []
  products : List ProductRec := []
  vendors : List VendorRec := []
  markets : List MarketRec := []
deriving DecidableEq

/-- Mutate the first list element satisfying `p` with `f` — models
SQLAlchemy fetching a row with `.first()` and committing a field
mutation on it. -/
def updateFirst (p : α → Bool) (f : α → α) : List α → List α
  | [] => []
  | x :: xs => if p x then f x :: xs else x :: updateFirst p f xs

/-! ## Credential codec — `app/core/auth.py` (absent from the sources,
modelled from the spec, section 4.1) -/

/-- The JWT claim payload `\x7bsub, user_id, role\x7d`; each claim may be
absent from a decoded payload (`payload.get` returns `None`). -/
structure TokenData where
  sub : Option String := none
  user_id : Option Nat := none
  role : Option String := none
deriving DecidableEq

/-- The two token kinds of the spec: short-lived access and longer-lived
refresh. -/
inductive TokenKind where
  | access
  | refresh
deriving DecidableEq

/-- Modelled from the spec: a signed token as the codec sees it — its
claim payload, its kind, whether its signature verifies against the
process-wide secret (`sig_ok`), and its expiry instant (unix seconds).
A malformed or tampered token is one with `sig_ok = false`. -/
structure Token where
  data : TokenData
  kind : TokenKind
  sig_ok : Bool
  exp : Nat
deriving DecidableEq

/-- `ACCESS_TOKEN_EXPIRE_MINUTES` from `app/core/config.py`. -/
def ACCESS_TOKEN_EXPIRE_MINUTES : Nat := 30

/-- Modelled from the spec: the refresh-token lifetime — "longer/independent
expiry policy" (section 4.1); the exact constant lives in the missing
`app/core/auth.py`.  Seven days, in seconds. -/
def REFRESH_TOKEN_EXPIRE_SECONDS : Nat := 7 * 24 * 60 * 60

/-- Modelled from the spec: `hash(password) -> digest`, one-way; the real
code delegates to a salted password hash.  The model tags the digest so
that `verify` below recognises exactly the matching password. -/
def get_password_hash (password : String) : String :=
  "pbkdf2$" ++ password

/-- Modelled from the spec: `verify(password, digest) -> bool`. -/
def verify_password (password digest : String) : Bool :=
  digest == get_password_hash password

/-- Modelled from the spec: `issue_access(claims, ttl)` — signs the claims
with the process secret, access kind, expiry = issue time + ttl. -/
def create_access_token (data : TokenData) (issued_at ttl_seconds : Nat) : Token :=
  { data := data, kind := .access, sig_ok := true, exp := issued_at + ttl_seconds }

/-- Modelled from the spec: `issue_refresh(claims)` — same claim shape,
refresh kind, longer independent expiry. -/
def create_refresh_token (data : TokenData) (issued_at : Nat) : Token :=
  { data := data, kind := .refresh, sig_ok := true,
    exp := issued_at + REFRESH_TOKEN_EXPIRE_SECONDS }

/-- Modelled from the spec: `decode_access(token) -> claims | fails` —
fails on bad signature / malformed payload (`sig_ok = false`) and on
expiry-by-clock. -/
def decode_access_token (t : Token) (now : Nat) : Option TokenData :=
  if t.sig_ok = true ∧ now < t.exp then some t.data else none

/-- Modelled from the spec: `decode_refresh(token) -> claims | fails` —
same contract as `decode_access`, and (section 8) rejects a token of the
wrong kind: "`refresh` using an access token (wrong token kind) must
fail — kind confusion is rejected". -/
def decode_refresh_token (t : Token) (now : Nat) : Option TokenData :=
  if t.sig_ok = true ∧ t.kind = TokenKind.refresh ∧ now < t.exp then some t.data
  else none

/-! ## Identity resolver and role gates — `app/core/dependencies.py` -/

/-- The shared 401 error of `get_current_user`
(`credentials_exception`). -/
def credentialsException : Err :=
  { status := 401, detail := "Could not validate credentials" }

/-- `get_current_user` (`app/core/dependencies.py`, lines 13–46): decode
the bearer token, require `sub` and `user_id` claims, look the user up
by id, reject an inactive account with a 400 distinct from the 401s. -/
def get_current_user (token : Token) (now : Nat) (db : DB) : Except Err UserRec :=
  match decode_access_token token now with
  | none => .error credentialsException
  | some payload =>
    match payload.sub, payload.user_id with
    | some _, some uid =>
      match db.users.find? (fun u => u.id == uid) with
      | none => .error credentialsException
      | some user =>
        if user.is_active = false then
          .error { status := 400, detail := "Inactive user" }
        else
          .ok user
    | _, _ => .error credentialsException

/-- `get_current_active_user`: re-checks `is_active` on the resolved
user. -/
def get_current_active_user (token : Token) (now : Nat) (db : DB) : Except Err UserRec :=
  match get_current_user token now db with
  | .error e => .error e
  | .ok current_user =>
    if current_user.is_active = false then
      .error { status := 400, detail := "Inactive user" }
    else
      .ok current_user

/-- The checker produced by `require_role(required_role)`
(`app/core/dependencies.py`, lines 58–67), as a function of the already
resolved current user. -/
def role_checker (required_role : UserRole) (current_user : UserRec) : Except Err UserRec :=
  if current_user.role ≠ required_role then
    .error { status := 403,
             detail := "Operation requires " ++ required_role.value ++ " role" }
  else
    .ok current_user

/-- `", ".join(role_names)` from `require_roles`. -/
def joinComma : List String → String
  | [] => ""
  | [x] => x
  | x :: xs => x ++ ", " ++ joinComma xs

/-- The checker produced by `require_roles(required_roles)`
(`app/core/dependencies.py`, lines 69–79). -/
def roles_checker (required_roles : List UserRole) (current_user : UserRec) :
    Except Err UserRec :=
  if current_user.role ∉ required_roles then
    .error { status := 403,
             detail := "Operation requires one of these roles: " ++
               joinComma (required_roles.map (fun role => role.value)) }
  else
    .ok current_user

/-- `require_admin = require_role(UserRole.ADMIN)`. -/
def require_admin : UserRec → Except Err UserRec := role_checker .admin

/-- `require_vendor = require_role(UserRole.VENDOR)`. -/
def require_vendor : UserRec → Except Err UserRec := role_checker .vendor

/-- `require_consumer = require_role(UserRole.CONSUMER)`. -/
def require_consumer : UserRec → Except Err UserRec := role_checker .consumer

/-- `require_vendor_or_admin = require_roles([VENDOR, ADMIN])`. -/
def require_vendor_or_admin : UserRec → Except Err UserRec :=
  roles_checker [.vendor, .admin]

/-! ## Auth endpoints — `app/api/auth.py` -/

/-- The token response shape `\x7baccess_token, refresh_token, token_type,
expires_in\x7d`. -/
structure TokenPair where
  access_token : Token
  refresh_token : Token
  token_type : String := "bearer"
  expires_in : Nat
deriving DecidableEq

/-- The `UserCreate` registration schema (`app/schemas/user.py`). -/
structure UserCreateData where
  email : String
  password : String
  full_name : String := ""
  phone : Option String := none
  role : UserRole := .consumer
  address : Option String := none
  city : Option String := none
  prefecture : Option String := none
  country : String := "Japan"
  postal_code : Option String := none
deriving DecidableEq

/-- The duplicate-phone check of `register_user`: skipped when no phone
is supplied. -/
def phoneTaken (user_data : UserCreateData) (db : DB) : Bool :=
  match user_data.phone with
  | none => false
  | some p => (db.users.find? (fun u => u.phone == some p)).isSome

/-- `register_user` (`app/api/auth.py`, lines 21–60).  The database
assigns the primary key; the model receives it as `newId`. -/
def register_user (user_data : UserCreateData) (newId : Nat) (db : DB) :
    Except Err (DB × UserRec) :=
  if (db.users.find? (fun u => u.email == user_data.email)).isSome then
    .error { status := 400, detail := "Email already registered" }
  else if phoneTaken user_data db then
    .error { status := 400, detail := "Phone number already registered" }
  else
    let db_user : UserRec :=
      { id := newId, email := user_data.email,
        hashed_password := get_password_hash user_data.password,
        full_name := user_data.full_name, phone := user_data.phone,
        role := user_data.role, address := user_data.address,
        city := user_data.city, prefecture := user_data.prefecture,
        country := user_data.country, postal_code := user_data.postal_code }
    .ok ({ db with users := db.users ++ [db_user] }, db_user)

/-- The single 401 raised by `login_user` both when the email is unknown
and when the password fails to verify. -/
def invalidCredentialsErr : Err :=
  { status := 401, detail := "Incorrect email or password" }

/-- The claim payload embedded at token issuance:
`\x7bsub: email, user_id: id, role: role.value\x7d`. -/
def snapshotData (user : UserRec) : TokenData :=
  { sub := some user.email, user_id := some user.id, role := some user.role.value }

/-- Both tokens issued for `user` at instant `now`, with the
`expires_in` field of the response. -/
def issueTokens (user : UserRec) (now : Nat) : TokenPair :=
  { access_token :=
      create_access_token (snapshotData user) now (ACCESS_TOKEN_EXPIRE_MINUTES * 60),
    refresh_token := create_refresh_token (snapshotData user) now,
    expires_in := ACCESS_TOKEN_EXPIRE_MINUTES * 60 }

/-- `login_user` (`app/api/auth.py`, lines 62–98): the unknown-email and
wrong-password cases raise the one `invalidCredentialsErr`; the activity
check runs only after that; success issues both tokens. -/
def login_user (email password : String) (db : DB) (now : Nat) :
    Except Err TokenPair :=
  match db.users.find? (fun u => u.email == email) with
  | none => .error invalidCredentialsErr
  | some user =>
    if verify_password password user.hashed_password = false then
      .error invalidCredentialsErr
    else if user.is_active = false then
      .error { status := 400, detail := "Inactive user account" }
    else
      .ok (issueTokens user now)

/-- `refresh_access_token` (`app/api/auth.py`, lines 100–139): decode the
refresh token, look the user up by the `user_id` claim (a missing claim
matches no row, as `User.id == None` does), reject a missing or inactive
user with one 401, and re-issue both tokens from the live user row. -/
def refresh_access_token (refresh_data : Token) (db : DB) (now : Nat) :
    Except Err TokenPair :=
  match decode_refresh_token refresh_data now with
  | none =>
    .error { status := 401, detail := "Invalid refresh token" }
  | some payload =>
    match db.users.find? (fun u => some u.id == payload.user_id) with
    | none => .error { status := 401, detail := "User not found or inactive" }
    | some user =>
      if user.is_active = false then
        .error { status := 401, detail := "User not found or inactive" }
      else
        .ok (issueTokens user now)

/-- `change_password` (`app/api/auth.py`, lines 146–164), acting on the
already resolved current user. -/
def change_password (current_user : UserRec) (current_password new_password : String)
    (db : DB) : Except Err (DB × String) :=
  if verify_password current_password current_user.hashed_password = false then
    .error { status := 400, detail := "Incorrect current password" }
  else
    let users :=
      updateFirst (fun u => u.id == current_user.id)
        (fun u => { u with hashed_password := get_password_hash new_password })
        db.users
    .ok ({ db with users := users }, "Password changed successfully")

/-- `toggle_user_active_status` (`app/api/auth.py`, lines 183–201): admin
guarded in the route; flips `is_active` of the addressed user. -/
def toggle_user_active_status (user_id : Nat) (db : DB) : Except Err (DB × String) :=
  match db.users.find? (fun u => u.id == user_id) with
  | none => .error { status := 404, detail := "User not found" }
  | some user =>
    let status_text := if !user.is_active then "activated" else "deactivated"
    let users :=
      updateFirst (fun u => u.id == user_id)
        (fun u => { u with is_active := !u.is_active }) db.users
    .ok ({ db with users := users }, "User " ++ status_text ++ " successfully")

/-! ## Category endpoints — `app/api/categories.py` -/

/-- `get_category` (`app/api/categories.py`, lines 40–56): the category
by id plus its product count. -/
def get_category (category_id : Nat) (db : DB) : Except Err (CategoryRec × Nat) :=
  match db.categories.find? (fun c => c.id == category_id) with
  | none => .error { status := 404, detail := "Category not found" }
  | some category =>
    .ok (category, (db.products.filter (fun p => p.category_id == category_id)).length)

/-- `create_category` (`app/api/categories.py`, lines 58–82), admin
guarded in the route. -/
def create_category (name : String) (newId : Nat) (db : DB) :
    Except Err (DB × CategoryRec) :=
  if (db.categories.find? (fun c => c.name == name)).isSome then
    .error { status := 400, detail := "Category with this name already exists" }
  else
    let db_category : CategoryRec := { id := newId, name := name }
    .ok ({ db with categories := db.categories ++ [db_category] }, db_category)

/-- `delete_category` (`app/api/categories.py`, lines 114–139): 404 when
absent, a 400 conflict while products reference it, otherwise the row is
deleted. -/
def delete_category (category_id : Nat) (db : DB) : Except Err (DB × String) :=
  match db.categories.find? (fun c => c.id == category_id) with
  | none => .error { status := 404, detail := "Category not found" }
  | some _ =>
    if 0 < (db.products.filter (fun p => p.category_id == category_id)).length then
      .error { status := 400, detail := "Cannot delete category with existing products" }
    else
      .ok ({ db with categories :=
               db.categories.eraseP (fun c => c.id == category_id) },
           "Category deleted successfully")

/-! ## Vendor / product endpoints used by the role-gate claims -/

/-- The `VendorCreate` schema fields the model needs. -/
structure VendorCreateData where
  market_id : Nat
  business_name : String := ""
deriving DecidableEq

/-- `create_vendor_profile` (`app/api/vendors.py`, lines 80–123): an
inline vendor-only check (403 for every other role, admin included),
then the one-profile-per-user and market-exists checks. -/
def create_vendor_profile (current_user : UserRec) (vendor_data : VendorCreateData)
    (newId : Nat) (db : DB) : Except Err (DB × VendorRec) :=
  if current_user.role ≠ UserRole.vendor then
    .error { status := 403,
             detail := "Only users with vendor role can create vendor profiles" }
  else if (db.vendors.find? (fun v => v.user_id == current_user.id)).isSome then
    .error { status := 400, detail := "User already has a vendor profile" }
  else
    match db.markets.find? (fun m => m.id == vendor_data.market_id) with
    | none => .error { status := 404, detail := "Market not found" }
    | some _ =>
      let db_vendor : VendorRec :=
        { id := newId, user_id := current_user.id,
          market_id := vendor_data.market_id,
          business_name := vendor_data.business_name }
      .ok ({ db with vendors := db.vendors ++ [db_vendor] }, db_vendor)

/-- `get_vendor_products` (`app/api/products.py`, lines 306–353): products
of the vendor joined with their category, optionally available only. -/
def get_vendor_products (vendor_id : Nat) (available_only : Bool) (db : DB) :
    Except Err (List ProductRec) :=
  match db.vendors.find? (fun v => v.id == vendor_id) with
  | none => .error { status := 404, detail := "Vendor not found" }
  | some _ =>
    let joined := db.products.filter (fun p =>
      p.vendor_id == vendor_id &&
      (db.categories.find? (fun c => c.id == p.category_id)).isSome)
    .ok (if available_only then joined.filter (fun p => p.is_available) else joined)

/-- `get_my_products` (`app/api/products.py`, lines 355–374): an inline
vendor-only check (403 for every other role, admin included), then the
vendor profile lookup and delegation to `get_vendor_products`. -/
def get_my_products (current_user : UserRec) (db : DB) : Except Err (List ProductRec) :=
  if current_user.role ≠ UserRole.vendor then
    .error { status := 403, detail := "Only vendors can access this endpoint" }
  else
    match db.vendors.find? (fun v => v.user_id == current_user.id) with
    | none => .error { status := 404, detail := "Vendor profile not found" }
    | some vendor => get_vendor_products vendor.id false db

/-! ## Profile-update schema and the exposed state transitions -/

/-- The `UserUpdate` schema (`app/schemas/user.py`, lines 67–74): exactly
these seven optional fields — no `role` field. -/
structure UserUpdate where
  full_name : Option String := none
  phone : Option String := none
  address : Option String := none
  city : Option String := none
  prefecture : Option String := none
  postal_code : Option String := none
  profile_image : Option String := none
deriving DecidableEq

/-- Applying a `UserUpdate` payload to a user row, field by provided
field (`dict(exclude_unset=True)` + `setattr`). -/
def applyUserUpdate (upd : UserUpdate) (u : UserRec) : UserRec :=
  { u with
    full_name := upd.full_name.getD u.full_name,
    phone := (upd.phone.map some).getD u.phone,
    address := (upd.address.map some).getD u.address,
    city := (upd.city.map some).getD u.city,
    prefecture := (upd.prefecture.map some).getD u.prefecture,
    postal_code := (upd.postal_code.map some).getD u.postal_code,
    profile_image := (upd.profile_image.map some).getD u.profile_image }

/-- One successful database-mutating request among the modelled exposed
endpoints that create or mutate rows. -/
inductive AppStep : DB → DB → Prop where
  | register (user_data : UserCreateData) (newId : Nat) (db db' : DB) (u : UserRec)
      (h : register_user user_data newId db = .ok (db', u)) : AppStep db db'
  | changePassword (cu : UserRec) (cur new : String) (db db' : DB) (msg : String)
      (h : change_password cu cur new db = .ok (db', msg)) : AppStep db db'
  | toggleActive (uid : Nat) (db db' : DB) (msg : String)
      (h : toggle_user_active_status uid db = .ok (db', msg)) : AppStep db db'
  | createCategory (name : String) (newId : Nat) (db db' : DB) (c : CategoryRec)
      (h : create_category name newId db = .ok (db', c)) : AppStep db db'
  | deleteCategory (cid : Nat) (db db' : DB) (msg : String)
      (h : delete_category cid db = .ok (db', msg)) : AppStep db db'
  | createVendorProfile (cu : UserRec) (vd : VendorCreateData) (newId : Nat)
      (db db' : DB) (v : VendorRec)
      (h : create_vendor_profile cu vd newId db = .ok (db', v)) : AppStep db db'

/-- The role recorded for user id `uid` in `db`. -/
def userRole (db : DB) (uid : Nat) : Option UserRole :=
  (db.users.find? (fun u => u.id == uid)).map (fun u => u.role)

/-! ## Media store — `app/core/file_handler.py` -/

/-- The filesystem under `uploads/`, as the set of present paths. -/
abbrev FS := List String

/-- Whether path `p` exists (`Path.exists`). -/
def fsExists (fs : FS) (p : String) : Bool := fs.contains p

/-- Writing path `p` (`aiofiles.open(..., ) + write`, or `img.save`). -/
def fsWrite (fs : FS) (p : String) : FS :=
  if fs.contains p then fs else fs ++ [p]

/-- `Path.unlink`: removes the path. -/
def fsUnlink (fs : FS) (p : String) : FS := fs.erase p

/-- `UPLOAD_DIR = Path("uploads")`. -/
def UPLOAD_DIR : String := "uploads"

/-- `ALLOWED_EXTENSIONS`. -/
def ALLOWED_EXTENSIONS : List String := [".jpg", ".jpeg", ".png", ".gif", ".webp"]

/-- `MAX_FILE_SIZE = 5 * 1024 * 1024`. -/
def MAX_FILE_SIZE : Nat := 5 * 1024 * 1024

/-- `UPLOAD_DIR / subdir / filename`. -/
def imagePath (subdir filename : String) : String :=
  UPLOAD_DIR ++ "/" ++ subdir ++ "/" ++ filename

/-- The derived thumbnail path `UPLOAD_DIR / subdir / ("thumb_" ++ name)`. -/
def thumbPath (subdir filename : String) : String :=
  UPLOAD_DIR ++ "/" ++ subdir ++ "/thumb_" ++ filename

/-- `pathlib.Path(name).suffix`: the last dot-suffix of the final
component, empty when the name has no dot, starts with its only dot, or
ends with the dot. -/
def pathSuffix (name : String) : String :=
  let cs := name.toList
  let after := cs.reverse.takeWhile (fun c => c != '.')
  if after.length == cs.length then ""
  else if after.length + 1 < cs.length && 0 < after.length then
    String.mk ('.' :: after.reverse)
  else ""

/-- `str.startswith`, computed on character lists. -/
def strStartsWith (s pre : String) : Bool :=
  pre.toList.isPrefixOf s.toList

/-- `str.lower`, computed on character lists. -/
def strToLower (s : String) : String :=
  String.mk (s.toList.map Char.toLower)

/-- An uploaded file as `save_image` inspects it: declared filename and
content type, and the byte length of its content. -/
structure UploadFile where
  filename : Option String := none
  content_type : Option String := none
  size : Nat := 0
deriving DecidableEq

/-- `validate_image_file` (`app/core/file_handler.py`, lines 29–35): the
content type must start with `image/` and the lowercased extension must
be an allowed one. -/
def validate_image_file (file : UploadFile) : Bool :=
  match file.content_type with
  | none => false
  | some ct =>
    if strStartsWith ct "image/" = false then false
    else decide (strToLower (pathSuffix (file.filename.getD "")) ∈ ALLOWED_EXTENSIONS)

/-- The environment-determined outcomes of one `save_image` run: the
uuid-generated filename, whether the original write raises, whether a
failed write leaves a partial file behind, whether `PIL` thumbnail
creation succeeds, and the exception text on failure. -/
structure SaveEffects where
  freshName : String
  writeOk : Bool := true
  partialWritten : Bool := false
  thumbOk : Bool := true
  errText : String := ""
deriving DecidableEq

/-- `create_thumbnail` (`app/core/file_handler.py`, lines 66–81): writes
the `thumb_` sibling; its own failure is caught inside the function and
only printed, so it never raises to the caller. -/
def create_thumbnail (fs : FS) (subdir filename : String) (thumbOk : Bool) : FS :=
  if thumbOk then fsWrite fs (thumbPath subdir filename) else fs

/-- `save_image` (`app/core/file_handler.py`, lines 37–64): validate,
enforce the size ceiling, write the original under the generated name,
derive the thumbnail; an exception during the write deletes the partial
original (when present) and reports a 500. -/
def save_image (file : UploadFile) (subdir : String) (eff : SaveEffects) (fs : FS) :
    FS × Except Err String :=
  if validate_image_file file = false then
    (fs, .error { status := 400, detail := "Invalid image file" })
  else if MAX_FILE_SIZE < file.size then
    (fs, .error { status := 400, detail := "File too large" })
  else
    let filename := eff.freshName
    let file_path := imagePath subdir filename
    if eff.writeOk then
      let fs1 := fsWrite fs file_path
      (create_thumbnail fs1 subdir filename eff.thumbOk, .ok filename)
    else
      let fs1 := if eff.partialWritten then fsWrite fs file_path else fs
      let fs2 := if fsExists fs1 file_path then fsUnlink fs1 file_path else fs1
      (fs2, .error { status := 500, detail := "Failed to save image: " ++ eff.errText })

/-- `delete_image` (`app/core/file_handler.py`, lines 83–96): unlink
original and thumbnail when present; an absent file is not an error and
the return value is `true` either way (the `except` branch is
unreachable in this sequential model). -/
def delete_image (filename subdir : String) (fs : FS) : Bool × FS :=
  let file_path := imagePath subdir filename
  let thumb_path := thumbPath subdir filename
  let fs1 := if fsExists fs file_path then fsUnlink fs file_path else fs
  let fs2 := if fsExists fs1 thumb_path then fsUnlink fs1 thumb_path else fs1
  (true, fs2)

/-! ## The spec's description of the role-gate primitive -/

/-- The spec's role-gate contract (section 4.3), stated about a gate
function: the identity passes through unchanged exactly on the allowed
set, and otherwise a 403 is signalled whose message carries every
allowed role's name. -/
def roleGateSpec (allowed : List UserRole) (gate : UserRec → Except Err UserRec) : Prop :=
  ∀ u : UserRec,
    (u.role ∈ allowed → gate u = .ok u) ∧
    (u.role ∉ allowed → ∃ e : Err, gate u = .error e ∧ e.status = 403 ∧
      ∀ r ∈ allowed, r.value.toList <:+: e.detail.toList)

/-! ## Sample data used by the witness theorems -/

/-- A sample admin user. -/
def adminU : UserRec :=
  { id := 1, email := "admin@x.com",
    hashed_password := get_password_hash "adminpass", role := .admin }

/-- A sample vendor user (owns vendor profile 20). -/
def vendorU : UserRec :=
  { id := 2, email := "v@x.com",
    hashed_password := get_password_hash "vendorpass", role := .vendor }

/-- A sample consumer user. -/
def consumerU : UserRec :=
  { id := 3, email := "c@x.com",
    hashed_password := get_password_hash "password1", role := .consumer }

/-- A sample deactivated user. -/
def inactiveU : UserRec :=
  { id := 4, email := "i@x.com",
    hashed_password := get_password_hash "password1", role := .consumer,
    is_active := false }

/-- A sample database: category 10 is referenced by a product, category
11 by none. -/
def sampleDB : DB :=
  { users := [adminU, vendorU, consumerU, inactiveU],
    categories := [{ id := 10, name := "Vegetables" }, { id := 11, name := "Fruit" }],
    products := [{ id := 100, vendor_id := 20, category_id := 10 }],
    vendors := [{ id := 20, user_id := 2, market_id := 30, business_name := "Farm" }],
    markets := [{ id := 30, name := "Main market" }] }

/-- The sample database after an admin toggles the consumer user's
active status off. -/
def sampleDBToggled : DB :=
  { sampleDB with
    users := [adminU, vendorU, { consumerU with is_active := false }, inactiveU] }

/-- A well-signed unexpired access token for `u`, issued at instant 0. -/
def goodTok (u : UserRec) : Token :=
  create_access_token (snapshotData u) 0 (ACCESS_TOKEN_EXPIRE_MINUTES * 60)

/-- A token whose signature does not verify. -/
def badSigTok : Token :=
  { data := snapshotData consumerU, kind := .access, sig_ok := false, exp := 1800 }

/-- A well-signed access token missing the `sub` claim. -/
def noSubTok : Token :=
  { data := { user_id := some 3 }, kind := .access, sig_ok := true, exp := 1800 }

/-- A well-signed access token whose `user_id` matches no user. -/
def ghostTok : Token :=
  { data := { sub := some "g@x.com", user_id := some 99, role := some "consumer" },
    kind := .access, sig_ok := true, exp := 1800 }

/-- A well-signed unexpired refresh token for the vendor user carrying a
stale `consumer` role snapshot. -/
def staleRoleRefreshTok : Token :=
  { data := { sub := some "v@x.com", user_id := some 2, role := some "consumer" },
    kind := .refresh, sig_ok := true, exp := 10000 }

/-- A valid small png upload. -/
def pngUpload : UploadFile :=
  { filename := some "a.png", content_type := some "image/png", size := 10 }

/-- A text upload (invalid format). -/
def txtUpload : UploadFile :=
  { filename := some "a.txt", content_type := some "text/plain", size := 10 }

/-- A png upload exceeding the size ceiling by one byte. -/
def bigUpload : UploadFile :=
  { filename := some "a.png", content_type := some "image/png",
    size := 5 * 1024 * 1024 + 1 }

/-- A fully successful save run. -/
def okEff : SaveEffects := { freshName := "f1.png" }

/-- A save run whose thumbnail generation fails. -/
def noThumbEff : SaveEffects := { freshName := "f1.png", thumbOk := false }

/-- A save run whose original write raises after a partial write. -/
def failWriteEff : SaveEffects :=
  { freshName := "f1.png", writeOk := false, partialWritten := true,
    errText := "disk full" }

/-! ## Helper lemmas -/

/-- A member of the joined list is an infix of the join. -/
theorem mem_infix_joinComma (x : String) :
    ∀ l : List String, x ∈ l → x.toList <:+: (joinComma l).toList
  | [], h => absurd h (List.not_mem_nil x)
  | [y], h => by
    have hx : x = y := by simpa using h
    subst hx
    exact List.infix_refl _
  | y :: z :: zs, h => by
    rcases List.mem_cons.mp h with hx | hx
    · subst hx
      show x.toList <:+: (x ++ ", " ++ joinComma (z :: zs)).toList
      refine List.IsPrefix.isInfix ?_
      show x.data <+: (x ++ ", " ++ joinComma (z :: zs)).data
      simp [List.append_assoc]
    · have ih := mem_infix_joinComma x (z :: zs) hx
      refine ih.trans (List.IsSuffix.isInfix ?_)
      show (joinComma (z :: zs)).data <:+ (y ++ ", " ++ joinComma (z :: zs)).data
      refine ⟨y.data ++ [',', ' '], ?_⟩
      simp

/-- `roles_checker` meets the spec's role-gate contract. -/
theorem roles_checker_meets_gate_spec (rs : List UserRole) :
    roleGateSpec rs (roles_checker rs) := by
  intro u
  constructor
  · intro h
    simp [roles_checker, h]
  · intro h
    refine ⟨{ status := 403,
              detail := "Operation requires one of these roles: " ++
                joinComma (rs.map (fun role => role.value)) },
      by simp [roles_checker, h], rfl, ?_⟩
    intro r hr
    show r.value.toList <:+:
      ("Operation requires one of these roles: " ++
        joinComma (rs.map (fun role => role.value))).toList
    have hmem : r.value ∈ rs.map (fun role => role.value) :=
      List.mem_map_of_mem _ hr
    have base := mem_infix_joinComma r.value _ hmem
    refine base.trans (List.IsSuffix.isInfix ?_)
    show (joinComma (rs.map (fun role => role.value))).data <:+ _
    exact ⟨"Operation requires one of these roles: ".data, by simp⟩

/-- `role_checker r` meets the spec's role-gate contract for the
singleton allowed set. -/
theorem role_checker_meets_gate_spec (r : UserRole) :
    roleGateSpec [r] (role_checker r) := by
  intro u
  constructor
  · intro h
    have hr : u.role = r := by simpa using h
    simp [role_checker, hr]
  · intro h
    have hr : u.role ≠ r := by simpa using h
    refine ⟨{ status := 403, detail := "Operation requires " ++ r.value ++ " role" },
      by simp [role_checker, hr], rfl, ?_⟩
    intro s hs
    have hsr : s = r := by simpa using hs
    subst hsr
    show s.value.toList <:+: ("Operation requires " ++ s.value ++ " role").toList
    exact ⟨"Operation requires ".data, " role".data, by simp⟩

/-- C3: the role gate is a pure check over a resolved identity and an
allowed role or role set — it passes the identity through unchanged
exactly when `identity.role` is in the allowed set and otherwise fails
with a 403 carrying the allowed roles' names in the message; the
admin-only, vendor-only, consumer-only and vendor-or-admin gates are
all instances of this one primitive. -/
theorem C3_role_gate_one_primitive :
    (∀ r : UserRole, roleGateSpec [r] (role_checker r)) ∧
    (∀ rs : List UserRole, roleGateSpec rs (roles_checker rs)) ∧
    roleGateSpec [.admin] require_admin ∧
    roleGateSpec [.vendor] require_vendor ∧
    roleGateSpec [.consumer] require_consumer ∧
    roleGateSpec [.vendor, .admin] require_vendor_or_admin :=
  ⟨role_checker_meets_gate_spec, roles_checker_meets_gate_spec,
   role_checker_meets_gate_spec .admin, role_checker_meets_gate_spec .vendor,
   role_checker_meets_gate_spec .consumer,
   roles_checker_meets_gate_spec [.vendor, .admin]⟩

/-- Witness for C3 at concrete inputs: the admin user passes the
admin-only and vendor-or-admin gates unchanged and is rejected by the
vendor-only gate with a 403 naming `vendor`. -/
theorem C3_role_gate_one_primitive_witness :
    require_admin adminU = .ok adminU ∧
    require_vendor_or_admin adminU = .ok adminU ∧
    (∃ e : Err, require_vendor adminU = .error e ∧ e.status = 403 ∧
      ∀ r ∈ [UserRole.vendor], r.value.toList <:+: e.detail.toList) :=
  ⟨(C3_role_gate_one_primitive.2.2.1 adminU).1 (by decide),
   (C3_role_gate_one_primitive.2.2.2.2.2 adminU).1 (by decide),
   (C3_role_gate_one_primitive.2.2.2.1 adminU).2 (by decide)⟩

/-- C10: single-role gates are exact-match with no admin superuser
bypass — `require_role(r)` passes a user exactly when the role equals
`r`, so an admin is rejected with a 403 by the vendor-only operations
(creating a vendor profile, listing my products) while passing the
vendor-or-admin multi-role gate. -/
theorem C10_single_role_gate_exact_match :
    (∀ (r : UserRole) (u : UserRec), role_checker r u = .ok u ↔ u.role = r) ∧
    (∀ u : UserRec, u.role = .admin →
      role_checker .vendor u =
        .error { status := 403, detail := "Operation requires vendor role" }) ∧
    (∀ (u : UserRec) (vd : VendorCreateData) (newId : Nat) (db : DB),
      u.role = .admin →
      create_vendor_profile u vd newId db =
        .error { status := 403,
                 detail := "Only users with vendor role can create vendor profiles" }) ∧
    (∀ (u : UserRec) (db : DB), u.role = .admin →
      get_my_products u db =
        .error { status := 403, detail := "Only vendors can access this endpoint" }) ∧
    (∀ u : UserRec, u.role = .admin → require_vendor_or_admin u = .ok u) := by
  refine ⟨?_, ?_, ?_, ?_, ?_⟩
  · intro r u
    by_cases h : u.role = r <;> simp [role_checker, h]
  · intro u h
    simp [role_checker, h]
    rfl
  · intro u vd newId db h
    simp [create_vendor_profile, h]
  · intro u db h
    simp [get_my_products, h]
  · intro u h
    simp [require_vendor_or_admin, roles_checker, h]

/-- Witness for C10 at concrete inputs: the sample admin is accepted by
the admin-only and vendor-or-admin gates and rejected with 403 by the
vendor-only gate and both vendor-only endpoints. -/
theorem C10_single_role_gate_exact_match_witness :
    role_checker .admin adminU = .ok adminU ∧
    role_checker .vendor adminU =
      .error { status := 403, detail := "Operation requires vendor role" } ∧
    create_vendor_profile adminU { market_id := 30 } 21 sampleDB =
      .error { status := 403,
               detail := "Only users with vendor role can create vendor profiles" } ∧
    get_my_products adminU sampleDB =
      .error { status := 403, detail := "Only vendors can access this endpoint" } ∧
    require_vendor_or_admin adminU = .ok adminU :=
  ⟨(C10_single_role_gate_exact_match.1 .admin adminU).mpr rfl,
   C10_single_role_gate_exact_match.2.1 adminU rfl,
   C10_single_role_gate_exact_match.2.2.1 adminU { market_id := 30 } 21 sampleDB rfl,
   C10_single_role_gate_exact_match.2.2.2.1 adminU sampleDB rfl,
   C10_single_role_gate_exact_match.2.2.2.2 adminU rfl⟩

/-- `find?` with the same predicate after `updateFirst`, when the update
does not change whether an element satisfies the predicate. -/
theorem find?_updateFirst (p : α → Bool) (f : α → α) (hp : ∀ x, p (f x) = p x) :
    ∀ l : List α, (updateFirst p f l).find? p = (l.find? p).map f
  | [] => rfl
  | x :: xs => by
    by_cases hx : p x
    · rw [updateFirst, if_pos hx, List.find?_cons_of_pos _ ((hp x).trans hx),
        List.find?_cons_of_pos _ hx]
      rfl
    · rw [updateFirst, if_neg hx, List.find?_cons_of_neg _ hx,
        List.find?_cons_of_neg _ hx]
      exact find?_updateFirst p f hp xs

/-- C1: the identity resolver classifies failures exactly as — decode
failure, missing `sub`/`user_id` claim, and unknown `user_id` each give
the 401 `credentialsException`; a found but inactive user gives the
distinct 400 "Inactive user"; and because the resolver reads the live
database row, deactivating a user makes the very next request with that
user's still-unexpired access token fail with the inactive error. -/
theorem C1_identity_resolution_classification :
    (∀ (t : Token) (now : Nat) (db : DB),
      decode_access_token t now = none →
      get_current_user t now db = .error credentialsException) ∧
    (∀ (t : Token) (now : Nat) (db : DB) (td : TokenData),
      decode_access_token t now = some td →
      td.sub = none ∨ td.user_id = none →
      get_current_user t now db = .error credentialsException) ∧
    (∀ (t : Token) (now : Nat) (db : DB) (td : TokenData) (e : String) (uid : Nat),
      decode_access_token t now = some td →
      td.sub = some e → td.user_id = some uid →
      db.users.find? (fun u => u.id == uid) = none →
      get_current_user t now db = .error credentialsException) ∧
    (∀ (t : Token) (now : Nat) (db : DB) (td : TokenData) (e : String) (uid : Nat)
      (u : UserRec),
      decode_access_token t now = some td →
      td.sub = some e → td.user_id = some uid →
      db.users.find? (fun x => x.id == uid) = some u → u.is_active = false →
      get_current_user t now db = .error { status := 400, detail := "Inactive user" }) ∧
    (credentialsException.status = 401 ∧
      ({ status := 400, detail := "Inactive user" } : Err) ≠ credentialsException) ∧
    (∀ (db db' : DB) (u : UserRec) (t : Token) (now : Nat) (msg : String),
      db.users.find? (fun x => x.id == u.id) = some u → u.is_active = true →
      t.sig_ok = true → now < t.exp →
      t.data.sub = some u.email → t.data.user_id = some u.id →
      toggle_user_active_status u.id db = .ok (db', msg) →
      get_current_user t now db' = .error { status := 400, detail := "Inactive user" }) := by
  refine ⟨?_, ?_, ?_, ?_, ⟨rfl, by decide⟩, ?_⟩
  · intro t now db h
    simp [get_current_user, h]
  · intro t now db td hdec h
    cases hs : td.sub with
    | none => simp [get_current_user, hdec, hs]
    | some e =>
      rcases h with h | h
      · rw [hs] at h; cases h
      · simp [get_current_user, hdec, hs, h]
  · intro t now db td e uid hdec hs hu hfind
    simp [get_current_user, hdec, hs, hu, hfind]
  · intro t now db td e uid u hdec hs hu hfind hact
    simp [get_current_user, hdec, hs, hu, hfind, hact]
  · intro db db' u t now msg hfind hact hsig hexp hs hu htog
    simp only [toggle_user_active_status, hfind, Except.ok.injEq, Prod.mk.injEq] at htog
    have hdb : db'.users =
        updateFirst (fun x => x.id == u.id)
          (fun x => { x with is_active := !x.is_active }) db.users := by
      rw [← htog.1]
    have hdec : decode_access_token t now = some t.data := by
      simp [decode_access_token, hsig, hexp]
    have hfind' : db'.users.find? (fun x => x.id == u.id) =
        some { u with is_active := !u.is_active } := by
      rw [hdb,
        find?_updateFirst (fun x => x.id == u.id)
          (fun x => { x with is_active := !x.is_active }) (fun x => rfl) db.users,
        hfind]
      rfl
    simp [get_current_user, hdec, hs, hu, hfind', hact]

/-- Witness for C1 at concrete inputs: a bad-signature token, a token
missing `sub`, a token for an unknown user id, a token for the inactive
user, and the deactivation-takes-effect-immediately scenario. -/
theorem C1_identity_resolution_classification_witness :
    get_current_user badSigTok 0 sampleDB = .error credentialsException ∧
    get_current_user noSubTok 0 sampleDB = .error credentialsException ∧
    get_current_user ghostTok 0 sampleDB = .error credentialsException ∧
    get_current_user (goodTok inactiveU) 0 sampleDB =
      .error { status := 400, detail := "Inactive user" } ∧
    get_current_user (goodTok consumerU) 0 sampleDBToggled =
      .error { status := 400, detail := "Inactive user" } :=
  ⟨C1_identity_resolution_classification.1 badSigTok 0 sampleDB rfl,
   C1_identity_resolution_classification.2.1 noSubTok 0 sampleDB noSubTok.data rfl
     (Or.inl rfl),
   C1_identity_resolution_classification.2.2.1 ghostTok 0 sampleDB
     ghostTok.data "g@x.com" 99 rfl rfl rfl rfl,
   C1_identity_resolution_classification.2.2.2.1 (goodTok inactiveU) 0 sampleDB
     (goodTok inactiveU).data "i@x.com" 4 inactiveU rfl rfl rfl rfl rfl,
   C1_identity_resolution_classification.2.2.2.2.2 sampleDB sampleDBToggled consumerU
     (goodTok consumerU) 0 "User deactivated successfully"
     rfl rfl rfl (by decide) rfl rfl rfl⟩

/-- C2: login fails with the one `invalidCredentialsErr` both when the
email is unknown and when the password does not verify (never revealing
whether the email exists); the activity check runs only after the
existence-plus-password check, so an inactive account with a wrong
password also gets invalid-credentials and only an existing,
password-matching, inactive account gets the 400 inactive error; an
existing, matching, active user receives both tokens. -/
theorem C2_login_classification :
    (∀ (email pw : String) (db : DB) (now : Nat),
      db.users.find? (fun u => u.email == email) = none →
      login_user email pw db now = .error invalidCredentialsErr) ∧
    (∀ (email pw : String) (db : DB) (now : Nat) (u : UserRec),
      db.users.find? (fun u => u.email == email) = some u →
      verify_password pw u.hashed_password = false →
      login_user email pw db now = .error invalidCredentialsErr) ∧
    (∀ (email pw : String) (db : DB) (now : Nat) (u : UserRec),
      db.users.find? (fun u => u.email == email) = some u →
      verify_password pw u.hashed_password = false → u.is_active = false →
      login_user email pw db now = .error invalidCredentialsErr) ∧
    (∀ (email pw : String) (db : DB) (now : Nat) (u : UserRec),
      db.users.find? (fun u => u.email == email) = some u →
      verify_password pw u.hashed_password = true → u.is_active = false →
      login_user email pw db now =
        .error { status := 400, detail := "Inactive user account" }) ∧
    (∀ (email pw : String) (db : DB) (now : Nat) (u : UserRec),
      db.users.find? (fun u => u.email == email) = some u →
      verify_password pw u.hashed_password = true → u.is_active = true →
      login_user email pw db now = .ok (issueTokens u now) ∧
      (issueTokens u now).access_token.kind = .access ∧
      (issueTokens u now).refresh_token.kind = .refresh) := by
  refine ⟨?_, ?_, ?_, ?_, ?_⟩
  · intro email pw db now h
    simp [login_user, h]
  · intro email pw db now u hfind hverify
    simp [login_user, hfind, hverify]
  · intro email pw db now u hfind hverify _
    simp [login_user, hfind, hverify]
  · intro email pw db now u hfind hverify hact
    simp [login_user, hfind, hverify, hact]
  · intro email pw db now u hfind hverify hact
    exact ⟨by simp [login_user, hfind, hverify, hact], rfl, rfl⟩

/-- Witness for C2 at concrete inputs: unknown email, wrong password
for the consumer, wrong password for the inactive account, correct
password for the inactive account, and a successful consumer login. -/
theorem C2_login_classification_witness :
    login_user "nobody@x.com" "password1" sampleDB 0 = .error invalidCredentialsErr ∧
    login_user "c@x.com" "wrongpass" sampleDB 0 = .error invalidCredentialsErr ∧
    login_user "i@x.com" "wrongpass" sampleDB 0 = .error invalidCredentialsErr ∧
    login_user "i@x.com" "password1" sampleDB 0 =
      .error { status := 400, detail := "Inactive user account" } ∧
    login_user "c@x.com" "password1" sampleDB 0 = .ok (issueTokens consumerU 0) :=
  ⟨C2_login_classification.1 "nobody@x.com" "password1" sampleDB 0 rfl,
   C2_login_classification.2.1 "c@x.com" "wrongpass" sampleDB 0 consumerU rfl rfl,
   C2_login_classification.2.2.1 "i@x.com" "wrongpass" sampleDB 0 inactiveU
     rfl rfl rfl,
   C2_login_classification.2.2.2.1 "i@x.com" "password1" sampleDB 0 inactiveU
     rfl rfl rfl,
   (C2_login_classification.2.2.2.2 "c@x.com" "password1" sampleDB 0 consumerU
     rfl rfl rfl).1⟩

/-- C4: refresh rejects an undecodable refresh token with a 401, rejects
a decoded token whose `user_id` matches no user or an inactive user with
a 401, and on success re-issues both tokens carrying a fresh snapshot of
the user's current role and email read from the database, not the values
embedded in the presented refresh token. -/
theorem C4_refresh_classification :
    (∀ (rt : Token) (db : DB) (now : Nat),
      decode_refresh_token rt now = none →
      refresh_access_token rt db now =
        .error { status := 401, detail := "Invalid refresh token" }) ∧
    (∀ (rt : Token) (db : DB) (now : Nat) (td : TokenData),
      decode_refresh_token rt now = some td →
      db.users.find? (fun u => some u.id == td.user_id) = none →
      refresh_access_token rt db now =
        .error { status := 401, detail := "User not found or inactive" }) ∧
    (∀ (rt : Token) (db : DB) (now : Nat) (td : TokenData) (u : UserRec),
      decode_refresh_token rt now = some td →
      db.users.find? (fun u => some u.id == td.user_id) = some u →
      u.is_active = false →
      refresh_access_token rt db now =
        .error { status := 401, detail := "User not found or inactive" }) ∧
    (∀ (rt : Token) (db : DB) (now : Nat) (td : TokenData) (u : UserRec),
      decode_refresh_token rt now = some td →
      db.users.find? (fun u => some u.id == td.user_id) = some u →
      u.is_active = true →
      refresh_access_token rt db now = .ok (issueTokens u now) ∧
      (issueTokens u now).access_token.data = snapshotData u ∧
      (issueTokens u now).refresh_token.data = snapshotData u ∧
      (issueTokens u now).access_token.kind = .access ∧
      (issueTokens u now).refresh_token.kind = .refresh) := by
  refine ⟨?_, ?_, ?_, ?_⟩
  · intro rt db now h
    simp [refresh_access_token, h]
  · intro rt db now td hdec hfind
    simp [refresh_access_token, hdec, hfind]
  · intro rt db now td u hdec hfind hact
    simp [refresh_access_token, hdec, hfind, hact]
  · intro rt db now td u hdec hfind hact
    exact ⟨by simp [refresh_access_token, hdec, hfind, hact], rfl, rfl, rfl, rfl⟩

/-- Witness for C4 at concrete inputs: an access token (undecodable as a
refresh token), a refresh token whose embedded role snapshot is the
stale `consumer` while the database row says `vendor` — the re-issued
tokens carry `vendor` — and the inactive user's refresh token. -/
theorem C4_refresh_classification_witness :
    refresh_access_token badSigTok sampleDB 0 =
      .error { status := 401, detail := "Invalid refresh token" } ∧
    refresh_access_token staleRoleRefreshTok sampleDB 0 = .ok (issueTokens vendorU 0) ∧
    (issueTokens vendorU 0).access_token.data = snapshotData vendorU ∧
    staleRoleRefreshTok.data.role = some "consumer" ∧
    (snapshotData vendorU).role = some "vendor" :=
  ⟨C4_refresh_classification.1 badSigTok sampleDB 0 rfl,
   (C4_refresh_classification.2.2.2 staleRoleRefreshTok sampleDB 0
     staleRoleRefreshTok.data vendorU rfl rfl rfl).1,
   (C4_refresh_classification.2.2.2 staleRoleRefreshTok sampleDB 0
     staleRoleRefreshTok.data vendorU rfl rfl rfl).2.1,
   rfl, rfl⟩

/-- C5: a token issued as an access token is never accepted by the
refresh operation — `decode_refresh` rejects the wrong token kind, so
refresh fails with the invalid-refresh-token 401 for every access
token, database and instant. -/
theorem C5_refresh_rejects_access_kind (data : TokenData) (issued ttl now : Nat)
    (db : DB) :
    refresh_access_token (create_access_token data issued ttl) db now =
      .error { status := 401, detail := "Invalid refresh token" } := by
  simp [refresh_access_token, decode_refresh_token, create_access_token]

/-- After erasing the first element satisfying `p` from a list holding
at most one such element, `find?` finds none. -/
theorem find?_eraseP_eq_none (p : α → Bool) :
    ∀ l : List α, l.countP p ≤ 1 → (l.eraseP p).find? p = none
  | [], _ => rfl
  | x :: xs, h => by
    by_cases hx : p x
    · rw [List.eraseP_cons_of_pos hx, List.find?_eq_none]
      intro a ha hpa
      have hzero : xs.countP p = 0 := by
        rw [List.countP_cons_of_pos _ _ hx] at h
        omega
      exact List.countP_eq_zero.mp hzero a ha hpa
    · rw [List.eraseP_cons_of_neg hx, List.find?_cons_of_neg _ hx]
      refine find?_eraseP_eq_none p xs ?_
      rwa [List.countP_cons_of_neg _ _ hx] at h

/-- C8: deleting a category referenced by at least one product fails
with the 400 conflict and the category stays fetchable in the unchanged
database; deleting a category with zero linked products succeeds and a
subsequent fetch of that category by id fails with the 404. -/
theorem C8_category_delete :
    (∀ (cid : Nat) (db : DB) (c : CategoryRec) (n : Nat),
      get_category cid db = .ok (c, n) → 0 < n →
      delete_category cid db =
        .error { status := 400,
                 detail := "Cannot delete category with existing products" } ∧
      get_category cid db = .ok (c, n)) ∧
    (∀ (cid : Nat) (db : DB) (c : CategoryRec),
      db.categories.find? (fun c => c.id == cid) = some c →
      (db.products.filter (fun p => p.category_id == cid)).length = 0 →
      db.categories.countP (fun c => c.id == cid) ≤ 1 →
      ∃ db' : DB,
        delete_category cid db = .ok (db', "Category deleted successfully") ∧
        get_category cid db' =
          .error { status := 404, detail := "Category not found" }) := by
  constructor
  · intro cid db c n hget hn
    refine ⟨?_, hget⟩
    rcases hfind : db.categories.find? (fun c => c.id == cid) with _ | c'
    · simp [get_category, hfind] at hget
    · simp only [get_category, hfind, Except.ok.injEq, Prod.mk.injEq] at hget
      simp [delete_category, hfind, hget.2, hn]
  · intro cid db c hfind hlen hcount
    refine ⟨{ db with categories := db.categories.eraseP (fun c => c.id == cid) },
      ?_, ?_⟩
    · simp [delete_category, hfind, hlen]
    · simp [get_category, find?_eraseP_eq_none _ _ hcount]

/-- Witness for C8 at concrete inputs: category 10 of the sample
database has one product and cannot be deleted; category 11 has none,
is deleted, and becomes unfetchable. -/
theorem C8_category_delete_witness :
    (delete_category 10 sampleDB =
      .error { status := 400,
               detail := "Cannot delete category with existing products" } ∧
     get_category 10 sampleDB = .ok ({ id := 10, name := "Vegetables" }, 1)) ∧
    (∃ db' : DB,
      delete_category 11 sampleDB = .ok (db', "Category deleted successfully") ∧
      get_category 11 db' = .error { status := 404, detail := "Category not found" }) :=
  ⟨C8_category_delete.1 10 sampleDB { id := 10, name := "Vegetables" } 1 rfl
     (by decide),
   C8_category_delete.2 11 sampleDB { id := 11, name := "Fruit" } rfl rfl
     (by decide)⟩

/-- `fsExists` decides membership. -/
theorem fsExists_eq_decide (fs : FS) (p : String) :
    fsExists fs p = decide (p ∈ fs) := by
  simp [fsExists, List.contains, List.elem_eq_mem]

/-- `fsWrite` as a membership-guarded append. -/
theorem fsWrite_eq (fs : FS) (p : String) :
    fsWrite fs p = if p ∈ fs then fs else fs ++ [p] := by
  simp [fsWrite, List.contains, List.elem_eq_mem]

/-- The written path is present after `fsWrite`. -/
theorem mem_fsWrite_self (fs : FS) (p : String) : p ∈ fsWrite fs p := by
  rw [fsWrite_eq]
  by_cases h : p ∈ fs
  · rwa [if_pos h]
  · rw [if_neg h]
    exact List.mem_append_right _ (List.mem_singleton.mpr rfl)

/-- `fsWrite` keeps existing paths. -/
theorem mem_fsWrite_of_mem (fs : FS) (p q : String) (h : q ∈ fs) :
    q ∈ fsWrite fs p := by
  rw [fsWrite_eq]
  by_cases hp : p ∈ fs
  · rwa [if_pos hp]
  · rw [if_neg hp]
    exact List.mem_append_left _ h

/-- `fsWrite` adds no path other than the written one. -/
theorem not_mem_fsWrite (fs : FS) (p q : String) (hq : q ∉ fs) (hne : q ≠ p) :
    q ∉ fsWrite fs p := by
  rw [fsWrite_eq]
  by_cases hp : p ∈ fs
  · rwa [if_pos hp]
  · rw [if_neg hp]
    intro hmem
    rcases List.mem_append.mp hmem with h | h
    · exact hq h
    · exact hne (List.mem_singleton.mp h)

/-- `fsWrite` preserves distinctness of paths. -/
theorem nodup_fsWrite (fs : FS) (p : String) (h : fs.Nodup) :
    (fsWrite fs p).Nodup := by
  rw [fsWrite_eq]
  by_cases hp : p ∈ fs
  · rwa [if_pos hp]
  · rw [if_neg hp]
    exact List.Nodup.append h (List.nodup_singleton p)
      (List.disjoint_singleton.mpr hp)

/-- The guarded-unlink step used by the media store: the path is absent
afterwards, distinctness is preserved, and no path is added. -/
theorem unlink_if_spec (l : FS) (q : String) (hl : l.Nodup) :
    (q ∉ (if fsExists l q then fsUnlink l q else l)) ∧
    (if fsExists l q then fsUnlink l q else l).Nodup ∧
    (∀ a, a ∈ (if fsExists l q then fsUnlink l q else l) → a ∈ l) := by
  by_cases hq : q ∈ l
  · rw [if_pos (by rw [fsExists_eq_decide]; exact decide_eq_true hq)]
    exact ⟨hl.not_mem_erase, hl.erase q, fun a ha => List.mem_of_mem_erase ha⟩
  · rw [if_neg (by rw [fsExists_eq_decide]; simpa using hq)]
    exact ⟨hq, hl, fun a ha => ha⟩

/-- C9: the media store's remove deletes the original and its thumbnail
when present, reports the same success whether or not they were there,
and a second identical call is a no-op returning the same success, with
no distinguishable was-not-there signal. -/
theorem C9_delete_image_idempotent (filename subdir : String) (fs : FS)
    (hnodup : fs.Nodup) :
    (delete_image filename subdir fs).fst = true ∧
    imagePath subdir filename ∉ (delete_image filename subdir fs).snd ∧
    thumbPath subdir filename ∉ (delete_image filename subdir fs).snd ∧
    delete_image filename subdir ((delete_image filename subdir fs).snd) =
      delete_image filename subdir fs := by
  obtain ⟨h1mem, h1nodup, h1sub⟩ := unlink_if_spec fs (imagePath subdir filename) hnodup
  obtain ⟨h2mem, h2nodup, h2sub⟩ :=
    unlink_if_spec
      (if fsExists fs (imagePath subdir filename)
       then fsUnlink fs (imagePath subdir filename) else fs)
      (thumbPath subdir filename) h1nodup
  have hfp2 : imagePath subdir filename ∉ (delete_image filename subdir fs).snd := by
    intro hmem
    exact h1mem (h2sub _ hmem)
  have htp2 : thumbPath subdir filename ∉ (delete_image filename subdir fs).snd :=
    h2mem
  have hfpx : fsExists (delete_image filename subdir fs).snd
      (imagePath subdir filename) = false := by
    rw [fsExists_eq_decide]
    simpa using hfp2
  have htpx : fsExists (delete_image filename subdir fs).snd
      (thumbPath subdir filename) = false := by
    rw [fsExists_eq_decide]
    simpa using htp2
  have hid : ∀ l : FS, fsExists l (imagePath subdir filename) = false →
      fsExists l (thumbPath subdir filename) = false →
      delete_image filename subdir l = (true, l) := by
    intro l hfp htp
    simp [delete_image, hfp, htp]
  refine ⟨rfl, hfp2, htp2, ?_⟩
  rw [hid _ hfpx htpx]
  rfl

/-- Witness for C9 at a concrete filesystem: two deletions of
`f1.png` from a directory holding it and its thumbnail. -/
theorem C9_delete_image_idempotent_witness :
    (delete_image "f1.png" "products"
      ["uploads/products/f1.png", "uploads/products/thumb_f1.png"]).fst = true ∧
    "uploads/products/f1.png" ∉
      (delete_image "f1.png" "products"
        ["uploads/products/f1.png", "uploads/products/thumb_f1.png"]).snd ∧
    "uploads/products/thumb_f1.png" ∉
      (delete_image "f1.png" "products"
        ["uploads/products/f1.png", "uploads/products/thumb_f1.png"]).snd ∧
    delete_image "f1.png" "products"
        ((delete_image "f1.png" "products"
          ["uploads/products/f1.png", "uploads/products/thumb_f1.png"]).snd) =
      delete_image "f1.png" "products"
        ["uploads/products/f1.png", "uploads/products/thumb_f1.png"] :=
  C9_delete_image_idempotent "f1.png" "products"
    ["uploads/products/f1.png", "uploads/products/thumb_f1.png"] (by decide)

/-- Counterexample to C7 as stated: a valid png upload whose `PIL`
thumbnail generation fails is still reported as a success — the original
is written but no thumbnail is derived, and no failure is reported, so
"on acceptance ... derives a thumbnail" does not hold of the code
(`create_thumbnail` swallows its own exception). -/
theorem C7_thumbnail_failure_counterexample :
    (save_image pngUpload "products" noThumbEff []).snd = .ok "f1.png" ∧
    imagePath "products" "f1.png" ∈ (save_image pngUpload "products" noThumbEff []).fst ∧
    thumbPath "products" "f1.png" ∉
      (save_image pngUpload "products" noThumbEff []).fst := by
  refine ⟨rfl, ?_, ?_⟩ <;> decide

/-- C7 (amended): the media store rejects a non-image content type or
disallowed extension with the 400 invalid-format error and payloads over
the 5 MiB ceiling with the 400 too-large error; on acceptance it writes
the original under the generated name and, when thumbnail generation
succeeds, derives the thumbnail — a thumbnail failure is swallowed and
success is still reported with the original kept and no thumbnail; any
failure while writing the original removes the partially written
original before the 500 failure is reported. -/
theorem C7_media_store_save (file : UploadFile) (subdir : String) (eff : SaveEffects)
    (fs : FS) :
    (validate_image_file file = false →
      save_image file subdir eff fs =
        (fs, .error { status := 400, detail := "Invalid image file" })) ∧
    (validate_image_file file = true → MAX_FILE_SIZE < file.size →
      save_image file subdir eff fs =
        (fs, .error { status := 400, detail := "File too large" })) ∧
    (validate_image_file file = true → file.size ≤ MAX_FILE_SIZE →
      eff.writeOk = true → eff.thumbOk = true →
      (save_image file subdir eff fs).snd = .ok eff.freshName ∧
      imagePath subdir eff.freshName ∈ (save_image file subdir eff fs).fst ∧
      thumbPath subdir eff.freshName ∈ (save_image file subdir eff fs).fst) ∧
    (validate_image_file file = true → file.size ≤ MAX_FILE_SIZE →
      eff.writeOk = true → eff.thumbOk = false →
      (save_image file subdir eff fs).snd = .ok eff.freshName ∧
      imagePath subdir eff.freshName ∈ (save_image file subdir eff fs).fst ∧
      (thumbPath subdir eff.freshName ∉ fs →
        thumbPath subdir eff.freshName ≠ imagePath subdir eff.freshName →
        thumbPath subdir eff.freshName ∉ (save_image file subdir eff fs).fst)) ∧
    (validate_image_file file = true → file.size ≤ MAX_FILE_SIZE →
      eff.writeOk = false → fs.Nodup →
      (save_image file subdir eff fs).snd =
        .error { status := 500, detail := "Failed to save image: " ++ eff.errText } ∧
      imagePath subdir eff.freshName ∉ (save_image file subdir eff fs).fst) := by
  refine ⟨?_, ?_, ?_, ?_, ?_⟩
  · intro h
    simp [save_image, h]
  · intro h1 h2
    simp [save_image, h1, h2]
  · intro h1 h2 hw ht
    have hns : ¬ MAX_FILE_SIZE < file.size := Nat.not_lt.mpr h2
    refine ⟨by simp [save_image, h1, hns, hw, ht], ?_, ?_⟩
    · show imagePath subdir eff.freshName ∈ (save_image file subdir eff fs).fst
      simp only [save_image, h1, hns, hw, ht, if_neg, if_pos, ite_true, ite_false,
        Bool.true_eq_false, Bool.false_eq_true, create_thumbnail, if_false, if_true]
      exact mem_fsWrite_of_mem _ _ _ (mem_fsWrite_self fs _)
    · simp only [save_image, h1, hns, hw, ht, ite_true, ite_false,
        Bool.true_eq_false, Bool.false_eq_true, create_thumbnail, if_false, if_true]
      exact mem_fsWrite_self _ _
  · intro h1 h2 hw ht
    have hns : ¬ MAX_FILE_SIZE < file.size := Nat.not_lt.mpr h2
    refine ⟨by simp [save_image, h1, hns, hw, ht], ?_, ?_⟩
    · simp only [save_image, h1, hns, hw, ht, ite_true, ite_false,
        Bool.true_eq_false, Bool.false_eq_true, create_thumbnail, if_false, if_true]
      exact mem_fsWrite_self _ _
    · intro hnot hne
      simp only [save_image, h1, hns, hw, ht, ite_true, ite_false,
        Bool.true_eq_false, Bool.false_eq_true, create_thumbnail, if_false, if_true]
      exact not_mem_fsWrite _ _ _ hnot hne
  · intro h1 h2 hw hnd
    have hns : ¬ MAX_FILE_SIZE < file.size := Nat.not_lt.mpr h2
    have hfs1 : (if eff.partialWritten
        then fsWrite fs (imagePath subdir eff.freshName) else fs).Nodup := by
      by_cases hp : eff.partialWritten
      · rw [if_pos hp]
        exact nodup_fsWrite fs _ hnd
      · rwa [if_neg hp]
    have hrm := (unlink_if_spec
      (if eff.partialWritten then fsWrite fs (imagePath subdir eff.freshName) else fs)
      (imagePath subdir eff.freshName) hfs1).1
    refine ⟨by simp [save_image, h1, hns, hw], ?_⟩
    simpa [save_image, h1, hns, hw] using hrm

/-- Witness for C7 (amended) at concrete inputs: a text upload, an
oversized upload, a fully successful save, a thumbnail-failing save and
a write-failing save. -/
theorem C7_media_store_save_witness :
    save_image txtUpload "products" okEff [] =
      ([], .error { status := 400, detail := "Invalid image file" }) ∧
    save_image bigUpload "products" okEff [] =
      ([], .error { status := 400, detail := "File too large" }) ∧
    ((save_image pngUpload "products" okEff []).snd = .ok okEff.freshName ∧
     imagePath "products" okEff.freshName ∈
       (save_image pngUpload "products" okEff []).fst ∧
     thumbPath "products" okEff.freshName ∈
       (save_image pngUpload "products" okEff []).fst) ∧
    ((save_image pngUpload "products" noThumbEff []).snd = .ok noThumbEff.freshName ∧
     imagePath "products" noThumbEff.freshName ∈
       (save_image pngUpload "products" noThumbEff []).fst) ∧
    ((save_image pngUpload "products" failWriteEff []).snd =
       .error { status := 500,
                detail := "Failed to save image: " ++ failWriteEff.errText } ∧
     imagePath "products" failWriteEff.freshName ∉
       (save_image pngUpload "products" failWriteEff []).fst) :=
  ⟨(C7_media_store_save txtUpload "products" okEff []).1 rfl,
   (C7_media_store_save bigUpload "products" okEff []).2.1 rfl (by decide),
   (C7_media_store_save pngUpload "products" okEff []).2.2.1 rfl (by decide) rfl rfl,
   ⟨((C7_media_store_save pngUpload "products" noThumbEff []).2.2.2.1 rfl (by decide)
      rfl rfl).1,
    ((C7_media_store_save pngUpload "products" noThumbEff []).2.2.2.1 rfl (by decide)
      rfl rfl).2.1⟩,
   (C7_media_store_save pngUpload "products" failWriteEff []).2.2.2.2 rfl (by decide)
     rfl (by decide)⟩

/-- The recorded role of any user id survives an `updateFirst` whose
update preserves id and role. -/
theorem userRoleMap_updateFirst (p : UserRec → Bool) (f : UserRec → UserRec)
    (hf : ∀ u, (f u).id = u.id ∧ (f u).role = u.role) :
    ∀ (l : List UserRec) (uid : Nat),
      ((updateFirst p f l).find? (fun u => u.id == uid)).map (fun u => u.role) =
        (l.find? (fun u => u.id == uid)).map (fun u => u.role)
  | [], _ => rfl
  | x :: xs, uid => by
    have hfid : ((f x).id == uid) = (x.id == uid) := by rw [(hf x).1]
    by_cases hx : p x
    · rw [updateFirst, if_pos hx]
      cases hid : (x.id == uid) with
      | true => simp [List.find?_cons, hid, hfid, (hf x).2]
      | false => simp [List.find?_cons, hid, hfid]
    · rw [updateFirst, if_neg hx]
      cases hid : (x.id == uid) with
      | true => simp [List.find?_cons, hid]
      | false =>
        simp only [List.find?_cons, hid, if_false, Bool.false_eq_true, ite_false]
        exact userRoleMap_updateFirst p f hf xs uid

/-- The recorded role of any user id survives appending new rows. -/
theorem userRoleMap_append (l l' : List UserRec) (uid : Nat) (r : UserRole)
    (h : (l.find? (fun u => u.id == uid)).map (fun u => u.role) = some r) :
    ((l ++ l').find? (fun u => u.id == uid)).map (fun u => u.role) = some r := by
  rcases hf : l.find? (fun u => u.id == uid) with _ | u0
  · rw [hf] at h
    cases h
  · rw [List.find?_append, hf]
    rw [hf] at h
    exact h

/-- C6: no exposed endpoint modifies a user's role after registration —
the `UserUpdate` profile schema carries no role field, and every
modelled database-mutating endpoint (registration, password change,
active-status toggle, category create/delete, vendor-profile creation)
preserves the recorded role of every existing user id. -/
theorem C6_role_immutable :
    (∀ (upd : UserUpdate) (u : UserRec), (applyUserUpdate upd u).role = u.role) ∧
    (∀ (db db' : DB), AppStep db db' → ∀ (uid : Nat) (r : UserRole),
      userRole db uid = some r → userRole db' uid = some r) := by
  constructor
  · intro upd u
    rfl
  · intro db db' hstep uid r hrole
    cases hstep with
    | register user_data newId db1 db2 u h =>
      simp only [register_user] at h
      split at h
      · simp at h
      · split at h
        · simp at h
        · simp only [Except.ok.injEq, Prod.mk.injEq] at h
          rw [← h.1]
          simp only [userRole] at hrole ⊢
          exact userRoleMap_append db.users _ uid r hrole
    | changePassword cu cur new db1 db2 msg h =>
      simp only [change_password] at h
      split at h
      · simp at h
      · simp only [Except.ok.injEq, Prod.mk.injEq] at h
        rw [← h.1]
        simp only [userRole] at hrole ⊢
        rw [userRoleMap_updateFirst (fun u => u.id == cu.id)
              (fun u => { u with hashed_password := get_password_hash new })
              (fun v => ⟨rfl, rfl⟩) db.users uid]
        exact hrole
    | toggleActive tid db1 db2 msg h =>
      rcases hf : db.users.find? (fun u => u.id == tid) with _ | u0
      · simp [toggle_user_active_status, hf] at h
      · simp only [toggle_user_active_status, hf, Except.ok.injEq,
          Prod.mk.injEq] at h
        rw [← h.1]
        simp only [userRole] at hrole ⊢
        rw [userRoleMap_updateFirst (fun u => u.id == tid)
              (fun u => { u with is_active := !u.is_active })
              (fun v => ⟨rfl, rfl⟩) db.users uid]
        exact hrole
    | createCategory name newId db1 db2 c h =>
      simp only [create_category] at h
      split at h
      · simp at h
      · simp only [Except.ok.injEq, Prod.mk.injEq] at h
        rw [← h.1]
        simpa [userRole] using hrole
    | deleteCategory cid db1 db2 msg h =>
      rcases hf : db.categories.find? (fun c => c.id == cid) with _ | c0
      · simp [delete_category, hf] at h
      · simp only [delete_category, hf] at h
        split at h
        · simp at h
        · simp only [Except.ok.injEq, Prod.mk.injEq] at h
          rw [← h.1]
          simpa [userRole] using hrole
    | createVendorProfile cu vd newId db1 db2 v h =>
      simp only [create_vendor_profile] at h
      split at h
      · simp at h
      · split at h
        · simp at h
        · rcases hm : db.markets.find? (fun m => m.id == vd.market_id) with _ | m0
          · rw [hm] at h
            simp at h
          · rw [hm] at h
            simp only [Except.ok.injEq, Prod.mk.injEq] at h
            rw [← h.1]
            simpa [userRole] using hrole

/-- Witness for C6 at concrete inputs: toggling the consumer's active
flag leaves the recorded role untouched, and applying an empty profile
update leaves the role field untouched. -/
theorem C6_role_immutable_witness :
    userRole sampleDBToggled 3 = some UserRole.consumer ∧
    (applyUserUpdate {} consumerU).role = consumerU.role :=
  ⟨C6_role_immutable.2 sampleDB sampleDBToggled
     (AppStep.toggleActive 3 sampleDB sampleDBToggled
       "User deactivated successfully" rfl) 3 UserRole.consumer rfl,
   C6_role_immutable.1 {} consumerU⟩

end NijiMarket
